import Mathlib

/-!
Verification of the time-bounded notification subsystem of the `geminiback`
chat-widget backend (Go sources `handlers/notifications.go`,
`config/notifications.go`, `config/database.go`, `models`).

The MongoDB store is embedded as a list of notification records; each Go
handler becomes a pure Lean function from its inputs and the store to a
result and (when it writes) a new store.  `time.Now()` becomes an explicit
`now : Int` parameter (nanoseconds, matching Go durations);  Mongo ObjectIDs
become `Nat` values obtained from 24-character hex strings exactly as
`primitive.ObjectIDFromHex` does.
-/

namespace Geminiback

/-- Mongo ObjectIDs are modelled as the numeric value of their 24 hex
characters; `primitive.NilObjectID` (twelve zero bytes) is `0`. -/
abbrev ObjectID := Nat

/-- `primitive.NilObjectID`: the zero ObjectID, used for system notifications
that have no owning user. -/
def NilObjectID : ObjectID := 0

/-- Hex digit test matching Go's `encoding/hex` alphabet: `0-9`, `a-f`, `A-F`. -/
def isHexChar (c : Char) : Bool :=
  c.isDigit || (97 ≤ c.toNat && c.toNat ≤ 102) || (65 ≤ c.toNat && c.toNat ≤ 70)

/-- Numeric value of one hex digit. -/
def hexVal (c : Char) : Nat :=
  if c.isDigit then c.toNat - 48
  else if 97 ≤ c.toNat && c.toNat ≤ 102 then c.toNat - 87
  else if 65 ≤ c.toNat && c.toNat ≤ 70 then c.toNat - 55
  else 0

/-- `primitive.ObjectIDFromHex`: succeeds exactly on strings of 24 hex
characters (the driver checks `len(s) != 24` and then hex-decodes). -/
def ObjectIDFromHex (s : String) : Option ObjectID :=
  if s.length == 24 && s.toList.all isHexChar then
    some (s.toList.foldl (fun a c => a * 16 + hexVal c) 0)
  else
    none

/-- `models.Notification` (models package).  `metadata` is an open string map;
its values play no role in any verified property, so they are kept as strings. -/
structure Notification where
  id : ObjectID
  project_id : ObjectID
  user_id : ObjectID
  type : String
  title : String
  message : String
  is_read : Bool
  created_at : Int
  expires_at : Int
  metadata : List (String × String)
deriving DecidableEq, Repr

/-- The notifications collection: the persisted sequence of records. -/
abbrev Store := List Notification

/-- Error classes surfaced by the handlers: HTTP 400 (`StatusBadRequest`)
and HTTP 404 (`StatusNotFound`). -/
inductive HError where
  | invalidArgument (msg : String)
  | notFound (msg : String)
deriving DecidableEq, Repr

/-- `collection.UpdateOne`: update the single first record matching the
filter; returns the `MatchedCount` (0 or 1) and the new store. -/
def updateOne (p : Notification → Bool) (f : Notification → Notification) :
    Store → Nat × Store
  | [] => (0, [])
  | n :: rest =>
    if p n then (1, f n :: rest)
    else
      let r := updateOne p f rest
      (r.1, n :: r.2)

/-- `collection.DeleteOne`: delete the single first record matching the
filter; returns the `DeletedCount` (0 or 1) and the new store. -/
def deleteOne (p : Notification → Bool) : Store → Nat × Store
  | [] => (0, [])
  | n :: rest =>
    if p n then (1, rest)
    else
      let r := deleteOne p rest
      (r.1, n :: r.2)

/-- `collection.DeleteMany`: delete every record matching the filter;
returns the `DeletedCount` and the new store. -/
def deleteMany (p : Notification → Bool) (s : Store) : Nat × Store :=
  (s.countP p, s.filter (fun n => !p n))

/-- `collection.UpdateMany`: apply the update to every matching record;
returns the `ModifiedCount` (records actually changed) and the new store. -/
def updateMany (p : Notification → Bool) (f : Notification → Notification)
    (s : Store) : Nat × Store :=
  (s.countP (fun n => p n && decide (f n ≠ n)),
   s.map (fun n => if p n then f n else n))

/-- The sort key `SetSort({"created_at", -1})`: `a` comes no later than `b`
in the output when `a.created_at ≥ b.created_at` (newest first). -/
def createdGe (a b : Notification) : Prop := b.created_at ≤ a.created_at

instance : DecidableRel createdGe := fun a b =>
  inferInstanceAs (Decidable (b.created_at ≤ a.created_at))

instance : IsTotal Notification createdGe :=
  ⟨fun a b => le_total b.created_at a.created_at⟩

instance : IsTrans Notification createdGe :=
  ⟨fun _ _ _ h1 h2 => le_trans h2 h1⟩

/-- `collection.Find` with `SetSort({"created_at", -1})` and `SetLimit lim`:
the matching records, newest first by `created_at`, truncated to `lim`. -/
def findSorted (p : Notification → Bool) (lim : Nat) (s : Store) :
    List Notification :=
  ((s.filter p).insertionSort createdGe).take lim

/-- `config.NotificationConfig` (config/notifications.go).  Durations are
Go `time.Duration` values in nanoseconds; `InitNotificationConfig` fills each
field from an environment variable through `parseDuration`/`parseInt`/
`parseBool`, so any value Go's `time.ParseDuration` accepts (including zero
and negative durations) can appear here. -/
structure NotificationConfig where
  CleanupInterval : Int
  DefaultExpiry : Int
  MaxPerUser : Int
  EnableCleanup : Bool
  RateLimitPerMinute : Int
  BurstLimit : Int
  SlackWebhookURL : String
deriving DecidableEq, Repr

/-- Go `time.Hour` in nanoseconds. -/
def goHour : Int := 3600000000000

/-- `handlers.CreateNotification`: computes the expiry (24 h fallback when
`config.NotificationSettings` is nil, otherwise `DefaultExpiry`), builds the
record with `IsRead = false`, `CreatedAt = now`, and inserts it.  `newId` is
the ObjectID the store assigns on insert; `cfg` is the process-wide
`NotificationSettings` pointer (`none` = nil). -/
def createNotification (cfg : Option NotificationConfig) (now : Int)
    (projectID userID : ObjectID) (notificationType title message : String)
    (metadata : List (String × String)) (newId : ObjectID) (store : Store) :
    Notification × Store :=
  let expiryTime : Int :=
    match cfg with
    | none => now + 24 * goHour
    | some c => now + c.DefaultExpiry
  let notification : Notification :=
    { id := newId
      project_id := projectID
      user_id := userID
      type := notificationType
      title := title
      message := message
      is_read := false
      created_at := now
      expires_at := expiryTime
      metadata := metadata }
  (notification, store ++ [notification])

/-- The user-scoping step of `handlers.GetNotifications` /
`MarkAllNotificationsAsRead`: only when the caller is not admin AND its
`user_id` context string is non-empty is the string parsed (400 on parse
failure) and an owner constraint added to the filter. -/
def gnUserFilter (isAdmin : Bool) (userID : String) :
    Except HError (Option ObjectID) :=
  if !isAdmin && userID != "" then
    match ObjectIDFromHex userID with
    | none => .error (.invalidArgument "Invalid user ID")
    | some u => .ok (some u)
  else
    .ok none

/-- The document filter `handlers.GetNotifications` sends to `Find`:
`expires_at > now`, plus the optional owner constraint, plus the `type` query
parameter when non-empty, plus the `project_id` query parameter when
non-empty and well-formed (a malformed project id is silently ignored). -/
def gnFilter (uopt : Option ObjectID) (typeQ projectQ : String) (now : Int)
    (n : Notification) : Bool :=
  decide (n.expires_at > now)
  && (match uopt with
      | some u => n.user_id == u
      | none => true)
  && (typeQ == "" || n.type == typeQ)
  && (match (if projectQ != "" then ObjectIDFromHex projectQ else none) with
      | some pid => n.project_id == pid
      | none => true)

/-- Response body of the listing handlers. -/
structure ListResult where
  notifications : List Notification
  count : Nat
  unread_count : Nat
deriving DecidableEq, Repr

/-- `handlers.GetNotifications`: role-based filter, newest-first sort,
limit 50, plus an unread count over the same filter conjoined with
`is_read = false`. -/
def getNotifications (isAdmin : Bool) (userID typeQ projectQ : String)
    (now : Int) (store : Store) : Except HError ListResult :=
  match gnUserFilter isAdmin userID with
  | .error e => .error e
  | .ok uopt =>
    let p := gnFilter uopt typeQ projectQ now
    let items := findSorted p 50 store
    .ok { notifications := items
          count := items.length
          unread_count := store.countP (fun n => p n && !n.is_read) }

/-- The `$set {is_read: true}` update document. -/
def setRead (n : Notification) : Notification := { n with is_read := true }

/-- `handlers.MarkNotificationAsRead`: parse the path id (400 when
malformed), `UpdateOne {_id: objID} {$set {is_read: true}}`, 404 when
`MatchedCount = 0`, otherwise success with the new store.  The handler reads
no caller identity: the filter is the record id alone. -/
def markNotificationAsRead (notificationID : String) (store : Store) :
    Except HError (String × Store) :=
  match ObjectIDFromHex notificationID with
  | none => .error (.invalidArgument "Invalid notification ID")
  | some objID =>
    let r := updateOne (fun n => n.id == objID) setRead store
    if r.1 == 0 then .error (.notFound "Notification not found")
    else .ok ("Notification marked as read", r.2)

/-- `handlers.MarkAllNotificationsAsRead`: filter `{is_read: false}`, plus
`user_id` only when the caller is not admin and has a non-empty user id
(400 when that id is malformed); `UpdateMany` sets `is_read` and the
response carries `updated_count = ModifiedCount`. -/
def markAllNotificationsAsRead (isAdmin : Bool) (userID : String)
    (store : Store) : Except HError (Nat × Store) :=
  match gnUserFilter isAdmin userID with
  | .error e => .error e
  | .ok uopt =>
    .ok (updateMany
      (fun n => !n.is_read
        && (match uopt with
            | some u => n.user_id == u
            | none => true))
      setRead store)

/-- `handlers.DeleteNotification`: parse the path id (400 when malformed),
`DeleteOne {_id: objID}`, 404 when `DeletedCount = 0`, otherwise success.
Like mark-as-read, the handler reads no caller identity. -/
def deleteNotification (notificationID : String) (store : Store) :
    Except HError (String × Store) :=
  match ObjectIDFromHex notificationID with
  | none => .error (.invalidArgument "Invalid notification ID")
  | some objID =>
    let r := deleteOne (fun n => n.id == objID) store
    if r.1 == 0 then .error (.notFound "Notification not found")
    else .ok ("Notification deleted successfully", r.2)

/-- `handlers.CleanupExpiredNotifications` (the Expiry Reaper's primitive):
`DeleteMany {expires_at: {$lt: now}}`, returning the deleted count and the
surviving store. -/
def cleanupExpiredNotifications (now : Int) (store : Store) : Nat × Store :=
  deleteMany (fun n => decide (n.expires_at < now)) store

/-- The notification sub-step of `config.CleanupExpiredData` (the
Maintenance Scheduler): its own `DeleteMany {expires_at: {$lt: now}}` on the
notifications collection, written independently in config/database.go. -/
def cleanupExpiredDataNotificationsStep (now : Int) (store : Store) :
    Nat × Store :=
  deleteMany (fun n => decide (n.expires_at < now)) store

/-- `handlers.GetProjectNotifications`: parse the path project id (400 when
malformed), filter `{project_id: objID, expires_at: {$gt: now}}`,
newest-first, limit 20. -/
def getProjectNotifications (projectID : String) (now : Int) (store : Store) :
    Except HError (List Notification) :=
  match ObjectIDFromHex projectID with
  | none => .error (.invalidArgument "Invalid project ID")
  | some objID =>
    .ok (findSorted
      (fun n => n.project_id == objID && decide (n.expires_at > now)) 20 store)

/-- Read-state of the record with a given id, as stored (`None` when the id
is unbound). -/
def readOf (oid : ObjectID) (s : Store) : Option Bool :=
  (s.find? (fun n => n.id == oid)).map (fun n => n.is_read)

/-! Concrete fixture records used by witnesses and counterexamples.
ObjectID `255` is the decoding of hex `0000000000000000000000ff`,
`1`/`2`/`3` of the corresponding 24-digit strings. -/

/-- An unread, active record owned by user `255` in project `2`. -/
def wOwner255 : Notification :=
  ⟨1, 2, 255, "info", "t1", "m1", false, 10, 100, []⟩

/-- An unread, active record owned by user `5` in project `2`. -/
def wOwner5 : Notification :=
  ⟨2, 2, 5, "warning", "t2", "m2", false, 20, 100, []⟩

/-- An unread record whose expiry sits exactly on the boundary instant `7`. -/
def wEdge : Notification :=
  ⟨3, 2, 255, "info", "t3", "m3", false, 5, 7, []⟩

/-- An unread, already-expired system record (owner `NilObjectID`). -/
def wExpiredSys : Notification :=
  ⟨4, 2, NilObjectID, "limit_expired", "t4", "m4", false, 1, 3, []⟩

/-- An already-read record owned by user `255`. -/
def wRead : Notification :=
  ⟨6, 2, 255, "success", "t5", "m5", true, 30, 100, []⟩

/-- A notification configuration whose `DefaultExpiry` is zero, as produced
by `InitNotificationConfig` when `NOTIFICATION_DEFAULT_EXPIRY=0s` is set in
the environment (`time.ParseDuration` accepts `"0s"`). -/
def zeroExpiryCfg : NotificationConfig :=
  { CleanupInterval := 24 * goHour
    DefaultExpiry := 0
    MaxPerUser := 100
    EnableCleanup := true
    RateLimitPerMinute := 10
    BurstLimit := 20
    SlackWebhookURL := "" }

/-! ### Helper lemmas about the store primitives -/

theorem mem_of_mem_findSorted {p : Notification → Bool} {lim : Nat}
    {s : Store} {n : Notification} (h : n ∈ findSorted p lim s) :
    n ∈ s ∧ p n = true := by
  have h1 : n ∈ (s.filter p).insertionSort createdGe :=
    List.mem_of_mem_take h
  have h2 : n ∈ s.filter p := (List.mem_insertionSort createdGe).1 h1
  exact ⟨List.mem_of_mem_filter h2, List.of_mem_filter h2⟩

theorem findSorted_all {p q : Notification → Bool} {lim : Nat} {s : Store}
    (h : ∀ n, p n = true → q n = true) :
    (findSorted p lim s).all q = true := by
  rw [List.all_eq_true]
  intro n hn
  exact h n (mem_of_mem_findSorted hn).2

theorem findSorted_sorted (p : Notification → Bool) (lim : Nat) (s : Store) :
    List.Sorted createdGe (findSorted p lim s) :=
  List.Pairwise.sublist (List.take_sublist _ _)
    (List.sorted_insertionSort createdGe (s.filter p))

theorem findSorted_length_le (p : Notification → Bool) (lim : Nat)
    (s : Store) : (findSorted p lim s).length ≤ lim := by
  simp [findSorted]

theorem updateOne_of_all_not {p : Notification → Bool}
    {f : Notification → Notification} {s : Store}
    (h : s.all (fun n => !p n) = true) : updateOne p f s = (0, s) := by
  induction s with
  | nil => rfl
  | cons n rest ih =>
    simp only [List.all_cons, Bool.and_eq_true, Bool.not_eq_true'] at h
    simp [updateOne, h.1, ih (by simpa using h.2)]

theorem deleteOne_of_all_not {p : Notification → Bool} {s : Store}
    (h : s.all (fun n => !p n) = true) : deleteOne p s = (0, s) := by
  induction s with
  | nil => rfl
  | cons n rest ih =>
    simp only [List.all_cons, Bool.and_eq_true, Bool.not_eq_true'] at h
    simp [deleteOne, h.1, ih (by simpa using h.2)]

theorem updateOne_setRead {oid : ObjectID} {s : Store}
    (h : s.any (fun n => n.id == oid) = true) :
    (updateOne (fun n => n.id == oid) setRead s).1 = 1 ∧
    readOf oid (updateOne (fun n => n.id == oid) setRead s).2 = some true ∧
    updateOne (fun n => n.id == oid) setRead
        ((updateOne (fun n => n.id == oid) setRead s).2) =
      (1, (updateOne (fun n => n.id == oid) setRead s).2) := by
  induction s with
  | nil => simp at h
  | cons n rest ih =>
    by_cases hp : (n.id == oid) = true
    · refine ⟨by simp [updateOne, hp], ?_, ?_⟩
      · simp [updateOne, hp, readOf, List.find?, setRead]
      · simp [updateOne, hp, setRead]
    · simp only [List.any_cons, Bool.or_eq_true] at h
      have h' : rest.any (fun n => n.id == oid) = true := h.resolve_left hp
      obtain ⟨ih1, ih2, ih3⟩ := ih h'
      refine ⟨by simp [updateOne, hp, ih1], ?_, ?_⟩
      · simpa [updateOne, hp, readOf, List.find?] using ih2
      · simp [updateOne, hp, ih3]

theorem deleteOne_of_any {p : Notification → Bool} {s : Store}
    (h : s.any p = true) :
    (deleteOne p s).1 = 1 ∧ (deleteOne p s).2.countP p + 1 = s.countP p := by
  induction s with
  | nil => simp at h
  | cons n rest ih =>
    by_cases hp : p n = true
    · refine ⟨by simp [deleteOne, hp], ?_⟩
      simp [deleteOne, hp, List.countP_cons]
    · simp only [List.any_cons, Bool.or_eq_true] at h
      obtain ⟨ih1, ih2⟩ := ih (h.resolve_left hp)
      refine ⟨by simp [deleteOne, hp, ih1], ?_⟩
      simp [deleteOne, hp, List.countP_cons, ← ih2]

theorem getNotifications_ok {isAdmin : Bool} {userID typeQ projectQ : String}
    {now : Int} {store : Store} {r : ListResult}
    (hr : getNotifications isAdmin userID typeQ projectQ now store = .ok r) :
    ∃ uopt, gnUserFilter isAdmin userID = .ok uopt ∧
      r.notifications = findSorted (gnFilter uopt typeQ projectQ now) 50 store := by
  unfold getNotifications at hr
  cases hg : gnUserFilter isAdmin userID with
  | error e => rw [hg] at hr; exact absurd hr (by simp)
  | ok uopt =>
    rw [hg] at hr
    simp only [Except.ok.injEq] at hr
    exact ⟨uopt, rfl, by rw [← hr]⟩

theorem getProjectNotifications_ok {pidStr : String} {now : Int}
    {store : Store} {items : List Notification}
    (hp : getProjectNotifications pidStr now store = .ok items) :
    ∃ objID, ObjectIDFromHex pidStr = some objID ∧
      items = findSorted
        (fun n => n.project_id == objID && decide (n.expires_at > now)) 20 store := by
  unfold getProjectNotifications at hp
  cases hg : ObjectIDFromHex pidStr with
  | none => rw [hg] at hp; exact absurd hp (by simp)
  | some objID =>
    rw [hg] at hp
    simp only [Except.ok.injEq] at hp
    exact ⟨objID, rfl, hp.symm⟩

/-! ### Claim theorems -/

/-- C2: the listings (`GetNotifications`, `GetProjectNotifications`) keep a
record only when `expires_at > now`, while `CleanupExpiredNotifications`
deletes exactly the records with `expires_at < now`; a record whose
`expires_at` equals `now` is therefore excluded from both listings yet
survives the cleanup, whose deleted count ranges only over the strictly
expired records. -/
theorem expiry_boundary_exclusion_retention (isAdmin : Bool)
    (userID typeQ projectQ pidStr : String) (now : Int) (store : Store)
    (n : Notification) (r : ListResult) (items : List Notification)
    (hr : getNotifications isAdmin userID typeQ projectQ now store = .ok r)
    (hp : getProjectNotifications pidStr now store = .ok items)
    (hmem : n ∈ store) (heq : n.expires_at = now) :
    n ∉ r.notifications ∧ n ∉ items ∧
    n ∈ (cleanupExpiredNotifications now store).2 ∧
    (cleanupExpiredNotifications now store).1 =
      store.countP (fun m => decide (m.expires_at < now)) := by
  obtain ⟨uopt, -, hlist⟩ := getNotifications_ok hr
  obtain ⟨objID, -, hitems⟩ := getProjectNotifications_ok hp
  refine ⟨?_, ?_, ?_, rfl⟩
  · intro hn
    rw [hlist] at hn
    have := (mem_of_mem_findSorted hn).2
    simp [gnFilter, heq] at this
  · intro hn
    rw [hitems] at hn
    have := (mem_of_mem_findSorted hn).2
    simp [heq] at this
  · exact List.mem_filter_of_mem hmem (by simp [heq])

/-- Witness for C2: the record `wEdge` expires exactly at instant `7`; at
`now = 7` both listings return it in neither result and the cleanup keeps
it. -/
theorem expiry_boundary_witness :
    wEdge ∉ (ListResult.mk [] 0 0).notifications ∧
    wEdge ∉ ([] : List Notification) ∧
    wEdge ∈ (cleanupExpiredNotifications 7 [wEdge]).2 ∧
    (cleanupExpiredNotifications 7 [wEdge]).1 =
      [wEdge].countP (fun m => decide (m.expires_at < 7)) :=
  expiry_boundary_exclusion_retention true "" "" ""
    "000000000000000000000002" 7 [wEdge] wEdge ⟨[], 0, 0⟩ [] rfl rfl
    (List.mem_singleton.mpr rfl) rfl

/-- C7: running `CleanupExpiredNotifications` twice in succession at the
same instant makes the second run delete zero records. -/
theorem cleanup_idempotent (now : Int) (store : Store) :
    (cleanupExpiredNotifications now
      (cleanupExpiredNotifications now store).2).1 = 0 := by
  simp only [cleanupExpiredNotifications, deleteMany, List.countP_filter]
  exact List.countP_eq_zero.2 (fun a _ => by simp)

/-- C8: every successful listing returns only records with
`expires_at > now`, sorted newest-first by `created_at`, with at most 50
records for `GetNotifications` and at most 20 for
`GetProjectNotifications`. -/
theorem listing_active_sorted_capped (isAdmin : Bool)
    (userID typeQ projectQ pidStr : String) (now : Int) (store : Store)
    (r : ListResult) (items : List Notification)
    (hr : getNotifications isAdmin userID typeQ projectQ now store = .ok r)
    (hp : getProjectNotifications pidStr now store = .ok items) :
    r.notifications.all (fun n => decide (n.expires_at > now)) = true ∧
    List.Sorted createdGe r.notifications ∧
    r.notifications.length ≤ 50 ∧
    items.all (fun n => decide (n.expires_at > now)) = true ∧
    List.Sorted createdGe items ∧
    items.length ≤ 20 := by
  obtain ⟨uopt, -, hlist⟩ := getNotifications_ok hr
  obtain ⟨objID, -, hitems⟩ := getProjectNotifications_ok hp
  rw [hlist, hitems]
  refine ⟨findSorted_all ?_, findSorted_sorted _ _ _, findSorted_length_le _ _ _,
    findSorted_all ?_, findSorted_sorted _ _ _, findSorted_length_le _ _ _⟩
  · intro n hn
    simp only [gnFilter, Bool.and_eq_true] at hn
    exact hn.1.1.1
  · intro n hn
    simp only [Bool.and_eq_true] at hn
    exact hn.2

/-- Witness for C8: an admin listing over two active records of project `2`
at `now = 0` returns them newest-first within both caps. -/
theorem listing_witness :
    ([wOwner5, wOwner255].all (fun n => decide (n.expires_at > 0))) = true ∧
    List.Sorted createdGe [wOwner5, wOwner255] ∧
    ([wOwner5, wOwner255] : List Notification).length ≤ 50 ∧
    ([wOwner5, wOwner255].all (fun n => decide (n.expires_at > 0))) = true ∧
    List.Sorted createdGe [wOwner5, wOwner255] ∧
    ([wOwner5, wOwner255] : List Notification).length ≤ 20 :=
  listing_active_sorted_capped true "" "" "" "000000000000000000000002" 0
    [wOwner255, wOwner5] ⟨[wOwner5, wOwner255], 2, 2⟩ [wOwner5, wOwner255]
    rfl rfl

/-- C9: the Expiry Reaper's primitive (`CleanupExpiredNotifications`,
handlers package) and the Maintenance Scheduler's notification sub-step
(`CleanupExpiredData`, config package) are extensionally the same operation
on the notifications collection: at any fixed `now` they delete exactly the
records with `expires_at < now` and keep exactly the others. -/
theorem reaper_maintenance_equivalence (now : Int) (store : Store) :
    cleanupExpiredDataNotificationsStep now store =
      cleanupExpiredNotifications now store ∧
    (cleanupExpiredNotifications now store).2 =
      store.filter (fun n => !decide (n.expires_at < now)) ∧
    (cleanupExpiredNotifications now store).1 =
      store.countP (fun n => decide (n.expires_at < now)) :=
  ⟨rfl, rfl, rfl⟩

/-- C1 counterexample: a non-privileged caller whose owner id is the empty
string (`c.GetString("user_id") = ""`) skips the owner constraint entirely
and receives a record owned by user `5`. -/
theorem owner_scope_counterexample :
    getNotifications false "" "" "" 0 [wOwner5] =
      .ok ⟨[wOwner5], 1, 1⟩ ∧ wOwner5.user_id = 5 :=
  ⟨rfl, rfl⟩

/-- C1 (amended): a non-privileged caller with a non-empty, well-formed
owner id `U` receives only records whose `user_id` equals the decoding of
`U`; the owner constraint is skipped exactly for privileged callers and for
non-privileged callers whose owner id is empty. -/
theorem owner_scope_nonempty (userID : String) (u : ObjectID)
    (typeQ projectQ : String) (now : Int) (store : Store) (r : ListResult)
    (hu : ObjectIDFromHex userID = some u)
    (hr : getNotifications false userID typeQ projectQ now store = .ok r) :
    r.notifications.all (fun n => n.user_id == u) = true := by
  obtain ⟨uopt, hg, hlist⟩ := getNotifications_ok hr
  have hne : userID ≠ "" := by
    intro h; subst h; simp [ObjectIDFromHex] at hu
  have huopt : uopt = some u := by
    unfold gnUserFilter at hg
    simp [hne, hu] at hg
    exact hg.symm
  subst huopt
  rw [hlist]
  apply findSorted_all
  intro n hn
  simp only [gnFilter, Bool.and_eq_true] at hn
  exact hn.1.1.2

/-- Witness for C1 (amended): owner id `0000000000000000000000ff`
(decoding to `255`) only ever receives records owned by `255`. -/
theorem owner_scope_nonempty_witness :
    ([wOwner255].all (fun n => n.user_id == 255)) = true :=
  owner_scope_nonempty "0000000000000000000000ff" 255 "" "" 0
    [wOwner255, wOwner5] ⟨[wOwner255], 1, 1⟩ rfl rfl

/-- C3 counterexample: `MarkNotificationAsRead` and `DeleteNotification`
never consult the caller's identity; a record owned by user `5` is
successfully mutated and deleted through its bare id, so any out-of-scope
caller obtains a successful mutation instead of an Unauthorized failure. -/
theorem scope_enforcement_counterexample :
    wOwner5.user_id = 5 ∧
    markNotificationAsRead "000000000000000000000002" [wOwner5] =
      .ok ("Notification marked as read", [setRead wOwner5]) ∧
    (setRead wOwner5).is_read = true ∧
    deleteNotification "000000000000000000000002" [wOwner5] =
      .ok ("Notification deleted successfully", []) :=
  ⟨rfl, rfl, rfl, rfl⟩

/-- C3 (amended): `MarkNotificationAsRead` and `DeleteNotification` filter
only on `_id`: for every well-formed id bound in the store they succeed,
mutating or removing the record regardless of its owner — the handlers take
no caller identity and produce no Unauthorized-class failure. -/
theorem mark_delete_unscoped (idStr : String) (oid : ObjectID) (store : Store)
    (h : ObjectIDFromHex idStr = some oid)
    (hmem : store.any (fun n => n.id == oid) = true) :
    markNotificationAsRead idStr store =
      .ok ("Notification marked as read",
           (updateOne (fun n => n.id == oid) setRead store).2) ∧
    deleteNotification idStr store =
      .ok ("Notification deleted successfully",
           (deleteOne (fun n => n.id == oid) store).2) := by
  have h1 := (updateOne_setRead hmem).1
  have h2 := (deleteOne_of_any hmem).1
  constructor
  · simp [markNotificationAsRead, h, h1]
  · simp [deleteNotification, h, h2]

/-- Witness for C3 (amended) at a concrete store holding only a record of
user `5`. -/
theorem mark_delete_unscoped_witness :
    markNotificationAsRead "000000000000000000000002" [wOwner5] =
      .ok ("Notification marked as read",
           (updateOne (fun n => n.id == 2) setRead [wOwner5]).2) ∧
    deleteNotification "000000000000000000000002" [wOwner5] =
      .ok ("Notification deleted successfully",
           (deleteOne (fun n => n.id == 2) [wOwner5]).2) :=
  mark_delete_unscoped "000000000000000000000002" 2 [wOwner5] rfl rfl

/-- C4 counterexample: `InitNotificationConfig` accepts any Go duration for
`NOTIFICATION_DEFAULT_EXPIRY` (e.g. `"0s"`), and with `DefaultExpiry = 0`
the created record has `expires_at` equal to — not strictly greater than —
`created_at`. -/
theorem create_expiry_counterexample :
    (createNotification (some zeroExpiryCfg) 1000 2 255 "info" "t" "m" []
      9 []).1.expires_at =
    (createNotification (some zeroExpiryCfg) 1000 2 255 "info" "t" "m" []
      9 []).1.created_at :=
  rfl

/-- C4 (amended): `CreateNotification` persists a record with
`expires_at = now + DefaultExpiry` (`now + 24h` when the configuration is
nil), and `expires_at > created_at` holds whenever the configured
`DefaultExpiry` is positive (the environment can also yield zero or negative
durations, for which the strict inequality fails). -/
theorem create_expiry (cfg : Option NotificationConfig) (now : Int)
    (projectID userID : ObjectID) (ty ti ms : String)
    (md : List (String × String)) (newId : ObjectID) (store : Store)
    (hpos : ∀ c, cfg = some c → 0 < c.DefaultExpiry) :
    (createNotification cfg now projectID userID ty ti ms md newId
        store).1.expires_at =
      now + (match cfg with
             | none => 24 * goHour
             | some c => c.DefaultExpiry) ∧
    (createNotification cfg now projectID userID ty ti ms md newId
        store).1.created_at <
      (createNotification cfg now projectID userID ty ti ms md newId
        store).1.expires_at ∧
    (createNotification cfg now projectID userID ty ti ms md newId
        store).2 =
      store ++ [(createNotification cfg now projectID userID ty ti ms md
        newId store).1] := by
  cases cfg with
  | none =>
    refine ⟨rfl, ?_, rfl⟩
    show now < now + 24 * goHour
    have h24 : (24 : Int) * goHour = 86400000000000 := by norm_num [goHour]
    omega
  | some c =>
    refine ⟨rfl, ?_, rfl⟩
    show now < now + c.DefaultExpiry
    have := hpos c rfl
    omega

/-- Witness for C4 (amended): absent configuration, the record created at
instant `0` expires at `24h` and is persisted by appending. -/
theorem create_expiry_witness :
    (createNotification none 0 2 255 "info" "t" "m" [] 9 []).1.expires_at =
      0 + 24 * goHour ∧
    (createNotification none 0 2 255 "info" "t" "m" [] 9 []).1.created_at <
      (createNotification none 0 2 255 "info" "t" "m" [] 9 []).1.expires_at ∧
    (createNotification none 0 2 255 "info" "t" "m" [] 9 []).2 =
      [] ++ [(createNotification none 0 2 255 "info" "t" "m" [] 9 []).1] :=
  create_expiry none 0 2 255 "info" "t" "m" [] 9 [] (fun _ h => nomatch h)

/-- C5: for a well-formed id bound to an existing record,
`MarkNotificationAsRead` is idempotent: the first call succeeds and sets
`is_read`, and the second call on the resulting store succeeds again
(`MatchedCount = 1`) leaving the store unchanged, with `is_read = true`
after either call. -/
theorem markRead_idempotent (idStr : String) (oid : ObjectID) (store : Store)
    (h : ObjectIDFromHex idStr = some oid)
    (hmem : store.any (fun n => n.id == oid) = true) :
    markNotificationAsRead idStr store =
      .ok ("Notification marked as read",
           (updateOne (fun n => n.id == oid) setRead store).2) ∧
    readOf oid (updateOne (fun n => n.id == oid) setRead store).2 =
      some true ∧
    markNotificationAsRead idStr
        ((updateOne (fun n => n.id == oid) setRead store).2) =
      .ok ("Notification marked as read",
           (updateOne (fun n => n.id == oid) setRead store).2) := by
  obtain ⟨h1, h2, h3⟩ := updateOne_setRead hmem
  refine ⟨by simp [markNotificationAsRead, h, h1], h2, ?_⟩
  simp [markNotificationAsRead, h, h3]

/-- Witness for C5 at the concrete record `wOwner255` (id `1`). -/
theorem markRead_idempotent_witness :
    markNotificationAsRead "000000000000000000000001" [wOwner255, wOwner5] =
      .ok ("Notification marked as read",
           (updateOne (fun n => n.id == 1) setRead [wOwner255, wOwner5]).2) ∧
    readOf 1 (updateOne (fun n => n.id == 1) setRead
        [wOwner255, wOwner5]).2 = some true ∧
    markNotificationAsRead "000000000000000000000001"
        ((updateOne (fun n => n.id == 1) setRead [wOwner255, wOwner5]).2) =
      .ok ("Notification marked as read",
           (updateOne (fun n => n.id == 1) setRead [wOwner255, wOwner5]).2) :=
  markRead_idempotent "000000000000000000000001" 1 [wOwner255, wOwner5]
    rfl rfl

/-- C6: a malformed id makes both `MarkNotificationAsRead` and
`DeleteNotification` fail with the InvalidArgument-class (400) error for
every store state, i.e. before any store access; a well-formed id bound to
no record yields the NotFound (404) error; and `DeleteNotification` on an
existing id (Mongo guarantees at most one record per `_id`) succeeds and
leaves no record with that id. -/
theorem id_validation_and_delete (idStr : String) (store : Store) :
    (ObjectIDFromHex idStr = none →
       markNotificationAsRead idStr store =
         .error (.invalidArgument "Invalid notification ID") ∧
       deleteNotification idStr store =
         .error (.invalidArgument "Invalid notification ID")) ∧
    (∀ oid, ObjectIDFromHex idStr = some oid →
       (store.all (fun n => !(n.id == oid)) = true →
          markNotificationAsRead idStr store =
            .error (.notFound "Notification not found") ∧
          deleteNotification idStr store =
            .error (.notFound "Notification not found")) ∧
       (store.any (fun n => n.id == oid) = true →
          store.countP (fun n => n.id == oid) ≤ 1 →
          deleteNotification idStr store =
            .ok ("Notification deleted successfully",
                 (deleteOne (fun n => n.id == oid) store).2) ∧
          ((deleteOne (fun n => n.id == oid) store).2).all
              (fun n => !(n.id == oid)) = true)) := by
  refine ⟨fun hnone => ?_,
    fun oid hsome => ⟨fun hall => ?_, fun hany hcount => ?_⟩⟩
  · exact ⟨by simp [markNotificationAsRead, hnone],
      by simp [deleteNotification, hnone]⟩
  · have hu := updateOne_of_all_not (f := setRead) hall
    have hd := deleteOne_of_all_not hall
    exact ⟨by simp [markNotificationAsRead, hsome, hu],
      by simp [deleteNotification, hsome, hd]⟩
  · obtain ⟨h1, h2⟩ := deleteOne_of_any hany
    refine ⟨by simp [deleteNotification, hsome, h1], ?_⟩
    have hz : ((deleteOne (fun n => n.id == oid) store).2).countP
        (fun n => n.id == oid) = 0 := by omega
    rw [List.all_eq_true]
    intro n hn
    have := List.countP_eq_zero.1 hz n hn
    simpa using this

/-- Witness for C6: a malformed id (`"zz"`), an unbound well-formed id
(`…ff`, decoding to `255`), and a bound id (`…02`, decoding to `2`) against
the singleton store `[wOwner5]`. -/
theorem id_validation_and_delete_witness :
    markNotificationAsRead "zz" [wOwner5] =
      .error (.invalidArgument "Invalid notification ID") ∧
    deleteNotification "0000000000000000000000ff" [wOwner5] =
      .error (.notFound "Notification not found") ∧
    deleteNotification "000000000000000000000002" [wOwner5] =
      .ok ("Notification deleted successfully",
           (deleteOne (fun n => n.id == 2) [wOwner5]).2) ∧
    ((deleteOne (fun n => n.id == 2) [wOwner5]).2).all
        (fun n => !(n.id == 2)) = true :=
  ⟨((id_validation_and_delete "zz" [wOwner5]).1 rfl).1,
   (((id_validation_and_delete "0000000000000000000000ff"
       [wOwner5]).2 255 rfl).1 (by decide)).2,
   ((id_validation_and_delete "000000000000000000000002"
       [wOwner5]).2 2 rfl).2 (by decide) (by decide)⟩

theorem setRead_ne (n : Notification) (h : n.is_read = false) :
    setRead n ≠ n := by
  intro he
  have := congrArg Notification.is_read he
  simp [setRead, h] at this

theorem countP_setRead_ne (q : Notification → Bool) (store : Store) :
    store.countP
        (fun n => (!n.is_read && q n) && decide (setRead n ≠ n)) =
      store.countP (fun n => !n.is_read && q n) := by
  induction store with
  | nil => rfl
  | cons n rest ih =>
    rw [List.countP_cons, List.countP_cons, ih]
    congr 1
    by_cases hr : n.is_read = true
    · simp [hr]
    · have hne := setRead_ne n (by simpa using hr)
      simp [hr, hne]

theorem updateMany_setRead (q : Notification → Bool) (store : Store) :
    updateMany (fun n => !n.is_read && q n) setRead store =
      (store.countP (fun n => !n.is_read && q n),
       store.map (fun n => if !n.is_read && q n then setRead n else n)) := by
  unfold updateMany
  rw [countP_setRead_ne]

theorem updateMany_setRead_unread (store : Store) :
    updateMany (fun n => !n.is_read) setRead store =
      (store.countP (fun n => !n.is_read),
       store.map (fun n => if !n.is_read then setRead n else n)) := by
  have h := updateMany_setRead (fun _ => true) store
  simpa using h

/-- C10: `MarkAllNotificationsAsRead` filters only on `is_read = false`
(plus `user_id` when the caller is non-privileged with a non-empty user
id): no expiry term appears, so expired unread records in scope are
transitioned and counted; a privileged caller — or a non-privileged caller
with an empty user id — bulk-updates unread records of every owner,
including system records, and afterwards every record is read. -/
theorem markAll_scope (userID : String) (u : ObjectID) (store : Store)
    (hu : ObjectIDFromHex userID = some u) :
    markAllNotificationsAsRead true userID store =
      .ok (store.countP (fun n => !n.is_read),
           store.map (fun n => if !n.is_read then setRead n else n)) ∧
    (store.map (fun n => if !n.is_read then setRead n else n)).all
        (fun n => n.is_read) = true ∧
    markAllNotificationsAsRead false "" store =
      .ok (store.countP (fun n => !n.is_read),
           store.map (fun n => if !n.is_read then setRead n else n)) ∧
    markAllNotificationsAsRead false userID store =
      .ok (store.countP (fun n => !n.is_read && n.user_id == u),
           store.map (fun n =>
             if !n.is_read && n.user_id == u then setRead n else n)) := by
  have hne : userID ≠ "" := by
    intro h; subst h; simp [ObjectIDFromHex] at hu
  have hall : (store.map
      (fun n => if !n.is_read then setRead n else n)).all
        (fun n => n.is_read) = true := by
    rw [List.all_eq_true]
    intro x hx
    obtain ⟨n, hn, rfl⟩ := List.mem_map.1 hx
    by_cases hr : n.is_read = true
    · simp [hr]
    · simp [hr, setRead]
  have htrue : ∀ uid', gnUserFilter true uid' = .ok none := fun _ => rfl
  have hempty : gnUserFilter false "" = .ok none := rfl
  have hg : gnUserFilter false userID = .ok (some u) := by
    unfold gnUserFilter
    simp [hne, hu]
  refine ⟨?_, hall, ?_, ?_⟩
  · simp only [markAllNotificationsAsRead, htrue, Bool.and_true,
      updateMany_setRead_unread]
  · simp only [markAllNotificationsAsRead, hempty, Bool.and_true,
      updateMany_setRead_unread]
  · simp only [markAllNotificationsAsRead, hg, updateMany_setRead]

/-- Witness for C10 on a store holding an expired unread system record, an
unread record of user `255`, and an already-read record: the admin bulk
update counts both unread records (the expired and the system one included)
and the owner-scoped update counts only user `255`'s. -/
theorem markAll_scope_witness :
    markAllNotificationsAsRead true "" [wExpiredSys, wOwner255, wRead] =
      .ok ([wExpiredSys, wOwner255, wRead].countP (fun n => !n.is_read),
           [wExpiredSys, wOwner255, wRead].map
             (fun n => if !n.is_read then setRead n else n)) ∧
    ([wExpiredSys, wOwner255, wRead].map
        (fun n => if !n.is_read then setRead n else n)).all
      (fun n => n.is_read) = true ∧
    markAllNotificationsAsRead false "" [wExpiredSys, wOwner255, wRead] =
      .ok ([wExpiredSys, wOwner255, wRead].countP (fun n => !n.is_read),
           [wExpiredSys, wOwner255, wRead].map
             (fun n => if !n.is_read then setRead n else n)) ∧
    markAllNotificationsAsRead false "0000000000000000000000ff"
        [wExpiredSys, wOwner255, wRead] =
      .ok ([wExpiredSys, wOwner255, wRead].countP
             (fun n => !n.is_read && n.user_id == 255),
           [wExpiredSys, wOwner255, wRead].map (fun n =>
             if !n.is_read && n.user_id == 255 then setRead n else n)) :=
  markAll_scope "0000000000000000000000ff" 255
    [wExpiredSys, wOwner255, wRead] rfl

end Geminiback
